import Mathlib

/-!
Verification of the invoice–purchase-order reconciliation engine of the
p2p-automation-system repository.

The embedding models the two reconciliation code paths:
 * the synchronous engine `DynamoDBService.reconcile_invoice_with_po`
   (src/backend/app/services/dynamodb_service.py, lines 637–759) together
   with the API route `InvoiceRoutes.reconcile_invoice`
   (src/backend/app/routes/invoices.py, lines 123–161), and
 * the batch engine `ReconciliationJobService.reconcile_invoice_with_po`
   with `process_invoice` / `run_reconciliation_job`
   (src/infra/reconciliation_job.py).

Monetary amounts are Python floats in the source; the embedding uses exact
rationals (the literal 0.01 becomes 1/100).  DynamoDB reads/writes and audit
writes are I/O; they are modelled by explicit lookup functions, explicit
status-update traces and an explicit audit-log list, with a Boolean oracle
for whether a given write succeeds.  The source formats floats into display
strings with Python's "%.2f"; `fmt2` renders a rational to two decimals for
the same purpose (rounding ties immaterial to every property proved here).
-/

namespace P2P

/-- Line item embedded in both a purchase order and an invoice: the source
reads `quantity` and `unit_price` out of a loose dict (default 0). -/
structure LineItem where
  quantity : ℚ
  unit_price : ℚ
deriving DecidableEq

/-- Purchase-order snapshot: the fields of the stored record that the
reconciliation logic reads. -/
structure PurchaseOrder where
  id : String
  status : String
  total_amount : ℚ
  items : List LineItem
deriving DecidableEq

/-- Invoice snapshot: the fields of the stored record that the
reconciliation logic reads. -/
structure Invoice where
  id : String
  po_id : String
  status : String
  total_amount : ℚ
  items : List LineItem
deriving DecidableEq

/-- Per-line diagnostic produced by the synchronous engine (the
`item_analysis` dict).  The source stores the two mismatching values
formatted into a display string; the embedding records the pair of values. -/
structure ItemAnalysis where
  line_number : Nat
  po_item : LineItem
  invoice_item : LineItem
  match_status : String
  quantity_difference : Option (ℚ × ℚ)
  price_difference : Option (ℚ × ℚ)
deriving DecidableEq

/-- The `reconciliation_details` dict built by the synchronous engine. -/
structure ReconDetails where
  total_amount_match : Bool
  items_match : Bool
  po_status_valid : Bool
  detailed_item_analysis : List ItemAnalysis
  discrepancies : List String
deriving DecidableEq

/-- The dict returned by the synchronous engine. -/
structure ReconResult where
  status : String
  message : String
  details : ReconDetails
deriving DecidableEq

/-- The `reconciliation_details` dict built by the batch engine — note it has
no `detailed_item_analysis` key. -/
structure JobReconDetails where
  total_amount_match : Bool
  items_match : Bool
  po_status_valid : Bool
  discrepancies : List String
deriving DecidableEq

/-- The dict returned by the batch engine. -/
structure JobReconResult where
  status : String
  message : String
  details : JobReconDetails
  po_total : ℚ
  invoice_total : ℚ
  amount_difference : ℚ
deriving DecidableEq

/-- Job statistics (`self.stats` of ReconciliationJobService). -/
structure JobStats where
  processed : Nat
  matched : Nat
  rejected : Nat
  errors : Nat
  skipped : Nat
deriving DecidableEq

/-- The statistics dict as `__init__` creates it: every counter zero. -/
def initStats : JobStats := ⟨0, 0, 0, 0, 0⟩

/-- An audit-log record (the fields the claims talk about). -/
structure AuditEntry where
  action : String
  entity_type : String
  entity_id : String
deriving DecidableEq

/-- Audit write (`create_audit_log`): on success the entry is appended and
True is returned; a storage failure is caught and False is returned, the log
unchanged.  `auditOk` is the oracle for whether the underlying put succeeds. -/
def create_audit_log (auditOk : Bool) (log : List AuditEntry) (e : AuditEntry) :
    List AuditEntry × Bool :=
  if auditOk then (log ++ [e], true) else (log, false)

/-- Python `f"{x:.2f}"` on a monetary value, over the rational embedding:
round to cents and print with two decimals. -/
def fmt2 (q : ℚ) : String :=
  let n : ℤ := round (q * 100)
  let sign := if n < 0 then "-" else ""
  let a := n.natAbs
  let frac := a % 100
  sign ++ toString (a / 100) ++ "." ++ (if frac < 10 then "0" ++ toString frac else toString frac)

/-- Python `str.lower()`, modelled character-wise: map `Char.toLower` over the
string's characters (the statuses compared against are ASCII). -/
def lower (s : String) : String :=
  ⟨s.data.map Char.toLower⟩

/-- Status gate test: `po_status in ["approved", "sent"]` after lowercasing. -/
def statusEligible (po_status : String) : Bool :=
  po_status = "approved" || po_status = "sent"

/-- Tolerance comparator shared by both engines:
`abs(po_total - invoice_total) <= po_total * 0.01`. -/
def toleranceOk (reference candidate : ℚ) : Bool :=
  decide (|reference - candidate| ≤ reference * (1 / 100))

/-- Item-count test shared by both engines: `len(po_items) == len(invoice_items)`. -/
def itemCountOk (po_items invoice_items : List LineItem) : Bool :=
  decide (po_items.length = invoice_items.length)

/-- Status gate (dynamodb_service.py lines 653–660, reconciliation_job.py
lines 164–169; both build the identical discrepancy string): the Boolean
`po_status_valid` and the discrepancy appended on failure. -/
def poStatusCheck (status : String) : Bool × List String :=
  let po_status := lower status
  (statusEligible po_status,
   if statusEligible po_status then []
   else ["PO status is '" ++ po_status ++ "', expected 'approved' or 'sent'"])

/-- Amount check of the synchronous engine (lines 662–675): the discrepancy
string reports difference and tolerance. -/
def amountCheckSync (po_total invoice_total : ℚ) : Bool × List String :=
  (toleranceOk po_total invoice_total,
   if toleranceOk po_total invoice_total then []
   else ["Total amount mismatch: PO $" ++ fmt2 po_total ++ ", Invoice $" ++ fmt2 invoice_total
         ++ " (Difference: $" ++ fmt2 |po_total - invoice_total|
         ++ ", Tolerance: $" ++ fmt2 (po_total * (1 / 100)) ++ ")"])

/-- Amount check of the batch engine (lines 171–182): same comparison, but
the discrepancy string omits the tolerance figure. -/
def amountCheckJob (po_total invoice_total : ℚ) : Bool × List String :=
  (toleranceOk po_total invoice_total,
   if toleranceOk po_total invoice_total then []
   else ["Total amount mismatch: PO $" ++ fmt2 po_total ++ ", Invoice $" ++ fmt2 invoice_total
         ++ " (Difference: $" ++ fmt2 |po_total - invoice_total| ++ ")"])

/-- Count-mismatch discrepancy string, identical in both engines. -/
def countMismatchMsg (po_items invoice_items : List LineItem) : String :=
  "Item count mismatch: PO has " ++ toString po_items.length
    ++ " items, Invoice has " ++ toString invoice_items.length ++ " items"

/-- Per-line analysis of one PO/invoice item pair (lines 688–710):
`match_status` starts as "matched", is overwritten by "quantity_mismatch" when
quantities differ, then by "price_mismatch" when unit prices differ by more
than 0.01 — the price check runs last and wins. -/
def analyzeItem (i : Nat) (po_item inv_item : LineItem) : ItemAnalysis :=
  let a0 : ItemAnalysis :=
    ⟨i + 1, po_item, inv_item, "matched", none, none⟩
  let a1 :=
    if po_item.quantity ≠ inv_item.quantity then
      { a0 with match_status := "quantity_mismatch",
                quantity_difference := some (po_item.quantity, inv_item.quantity) }
    else a0
  if |po_item.unit_price - inv_item.unit_price| > 1 / 100 then
    { a1 with match_status := "price_mismatch",
              price_difference := some (po_item.unit_price, inv_item.unit_price) }
  else a1

/-- The loop `for i, (po_item, inv_item) in enumerate(zip(po_items, invoice_items))`,
called only when the two lists have equal length. -/
def analyzeItems (i : Nat) : List LineItem → List LineItem → List ItemAnalysis
  | p :: ps, q :: qs => analyzeItem i p q :: analyzeItems (i + 1) ps qs
  | _, _ => []

/-- Line-item matcher of the synchronous engine (lines 677–716): Boolean
`items_match`, count discrepancy on length mismatch, and the per-line
analysis list (built only when counts agree). -/
def lineItemCheckSync (po_items invoice_items : List LineItem) :
    Bool × List String × List ItemAnalysis :=
  (itemCountOk po_items invoice_items,
   if itemCountOk po_items invoice_items then []
   else [countMismatchMsg po_items invoice_items],
   if itemCountOk po_items invoice_items then analyzeItems 0 po_items invoice_items
   else [])

/-- Line-item matcher of the batch engine (lines 184–193): count check only,
no per-line analysis. -/
def lineItemCheckJob (po_items invoice_items : List LineItem) : Bool × List String :=
  (itemCountOk po_items invoice_items,
   if itemCountOk po_items invoice_items then []
   else [countMismatchMsg po_items invoice_items])

namespace DynamoDBService

/-- Synchronous reconciliation engine (dynamodb_service.py lines 643–733):
status gate, amount tolerance check, line-item matcher, then the verdict
`matched` iff all three Booleans hold; discrepancies accumulate in the order
status, amount, items. -/
def reconcile_invoice_with_po (invoice_data : Invoice) (po_data : PurchaseOrder) :
    ReconResult :=
  let sc := poStatusCheck po_data.status
  let ac := amountCheckSync po_data.total_amount invoice_data.total_amount
  let ic := lineItemCheckSync po_data.items invoice_data.items
  let all_checks_passed := ac.1 && ic.1 && sc.1
  let discrepancies := sc.2 ++ ac.2 ++ ic.2.1
  { status := if all_checks_passed then "matched" else "rejected"
    message :=
      if all_checks_passed then
        "Invoice successfully matched with purchase order - all validation checks passed"
      else
        "Invoice rejected due to " ++ toString discrepancies.length ++ " validation discrepancies"
    details :=
      { total_amount_match := ac.1
        items_match := ic.1
        po_status_valid := sc.1
        detailed_item_analysis := ic.2.2
        discrepancies := discrepancies } }

/-- The engine together with its audit write (lines 735–759): the RECONCILE
audit entry is attempted and any failure of the write is caught and ignored,
so the returned report is the engine's regardless of `auditOk`. -/
def reconcile_invoice_with_po_logged (auditOk : Bool) (invoice_id : String)
    (invoice_data : Invoice) (po_data : PurchaseOrder) (log : List AuditEntry) :
    ReconResult × List AuditEntry :=
  let r := reconcile_invoice_with_po invoice_data po_data
  let w := create_audit_log auditOk log ⟨"RECONCILE", "Invoice", invoice_id⟩
  (r, w.1)

end DynamoDBService

namespace InvoiceRoutes

/-- The PUT /invoices/:id/reconcile route (invoices.py lines 123–161):
look the invoice up (404 when absent), look its PO up (400 when absent), run
the engine, persist the verdict as the invoice's new status.  The second
component is the list of status updates the handler persisted; the third is
the audit log after the call. -/
def reconcile_invoice (getInvoice : String → Option Invoice)
    (getPO : String → Option PurchaseOrder) (auditOk : Bool) (invoice_id : String) :
    Except (Nat × String) (ReconResult × String) × List (String × String) × List AuditEntry :=
  match getInvoice invoice_id with
  | none => (Except.error (404, "Invoice not found"), [], [])
  | some invoice_data =>
    match getPO invoice_data.po_id with
    | none => (Except.error (400, "Associated purchase order not found"), [], [])
    | some po_data =>
      let rw := DynamoDBService.reconcile_invoice_with_po_logged auditOk invoice_id
                  invoice_data po_data []
      (Except.ok (rw.1, rw.1.status), [(invoice_id, rw.1.status)], rw.2)

end InvoiceRoutes

namespace ReconciliationJobService

/-- Batch reconciliation engine (reconciliation_job.py lines 153–220): same
three checks in the same order, but shorter messages, no tolerance figure in
the amount discrepancy, and no per-line analysis. -/
def reconcile_invoice_with_po (invoice_data : Invoice) (po_data : PurchaseOrder) :
    JobReconResult :=
  let sc := poStatusCheck po_data.status
  let ac := amountCheckJob po_data.total_amount invoice_data.total_amount
  let ic := lineItemCheckJob po_data.items invoice_data.items
  let all_checks_passed := ac.1 && ic.1 && sc.1
  let discrepancies := sc.2 ++ ac.2 ++ ic.2
  { status := if all_checks_passed then "matched" else "rejected"
    message :=
      if all_checks_passed then "Successfully matched"
      else "Rejected due to " ++ toString discrepancies.length ++ " discrepancies"
    details :=
      { total_amount_match := ac.1
        items_match := ic.1
        po_status_valid := sc.1
        discrepancies := discrepancies }
    po_total := po_data.total_amount
    invoice_total := invoice_data.total_amount
    amount_difference := |po_data.total_amount - invoice_data.total_amount| }

/-- Outcome of `process_invoice` on one invoice: the statistics after the
call, the audit log after the call, the status update persisted (if any),
and the returned Boolean. -/
structure ProcessResult where
  stats : JobStats
  log : List AuditEntry
  update : Option (String × String)
  ok : Bool
deriving DecidableEq

/-- One sweep step (reconciliation_job.py lines 246–328): PO lookup failure
increments `errors` and writes a RECONCILE_ERROR audit entry; otherwise the
engine runs, the verdict is persisted (`updateOk` is the oracle for the
status write), the BATCH_RECONCILE audit entry is attempted with its result
ignored, and `processed` plus `matched`/`rejected` are incremented; a failed
status write increments `errors` instead. -/
def process_invoice (lookupPO : String → Option PurchaseOrder)
    (updateOk : String → Bool) (auditOk : Bool) (inv : Invoice)
    (stats : JobStats) (log : List AuditEntry) : ProcessResult :=
  match lookupPO inv.po_id with
  | none =>
    { stats := { stats with errors := stats.errors + 1 }
      log := (create_audit_log auditOk log ⟨"RECONCILE_ERROR", "Invoice", inv.id⟩).1
      update := none
      ok := false }
  | some po_data =>
    let r := reconcile_invoice_with_po inv po_data
    if updateOk inv.id then
      let log1 := (create_audit_log auditOk log ⟨"BATCH_RECONCILE", "Invoice", inv.id⟩).1
      let stats1 := { stats with processed := stats.processed + 1 }
      let stats2 :=
        if r.status = "matched" then { stats1 with matched := stats1.matched + 1 }
        else { stats1 with rejected := stats1.rejected + 1 }
      { stats := stats2, log := log1, update := some (inv.id, r.status), ok := true }
    else
      { stats := { stats with errors := stats.errors + 1 }, log := log
        update := none, ok := false }

/-- The sweep loop `for invoice in received_invoices: await self.process_invoice(invoice)`:
threads statistics and audit log through every invoice, collecting the status
updates persisted and, in order, each invoice's returned Boolean. -/
def processAll (lookupPO : String → Option PurchaseOrder)
    (updateOk : String → Bool) (auditOk : Bool) :
    List Invoice → JobStats → List AuditEntry →
    JobStats × List AuditEntry × List (String × String) × List Bool
  | [], stats, log => (stats, log, [], [])
  | inv :: rest, stats, log =>
    let t := process_invoice lookupPO updateOk auditOk inv stats log
    let r2 := processAll lookupPO updateOk auditOk rest t.stats t.log
    (r2.1, r2.2.1, t.update.toList ++ r2.2.2.1, t.ok :: r2.2.2.2)

/-- Main job (reconciliation_job.py lines 330–399) over the scanned list of
received invoices: an empty scan returns early with the untouched statistics,
otherwise every invoice is processed and a JOB_COMPLETE audit entry is
attempted. -/
def run_reconciliation_job (lookupPO : String → Option PurchaseOrder)
    (updateOk : String → Bool) (auditOk : Bool) (received_invoices : List Invoice) :
    JobStats × List AuditEntry × List (String × String) × List Bool :=
  match received_invoices with
  | [] => (initStats, [], [], [])
  | inv :: rest =>
    let r := processAll lookupPO updateOk auditOk (inv :: rest) initStats []
    let log1 := (create_audit_log auditOk r.2.1 ⟨"JOB_COMPLETE", "ReconciliationJob", "job"⟩).1
    (r.1, log1, r.2.2.1, r.2.2.2)

end ReconciliationJobService

/-! Concrete snapshots used to evaluate the functions at specific inputs. -/

/-- Invoice with one item-free, amount-matching PO: both engines verdict
`matched` on it. -/
def cexInvoice : Invoice := ⟨"inv-1", "po-1", "received", 100, []⟩

/-- Purchase order matching `cexInvoice`. -/
def cexPO : PurchaseOrder := ⟨"po-1", "approved", 100, []⟩

/-- Resolvable PO in approved status. -/
def wPoA : PurchaseOrder := ⟨"po-1", "approved", 500, []⟩

/-- Resolvable PO in draft status. -/
def wPoC : PurchaseOrder := ⟨"po-3", "draft", 200, []⟩

/-- Received invoice whose PO reference resolves. -/
def wInvA : Invoice := ⟨"inv-1", "po-1", "received", 500, []⟩

/-- Received invoice whose PO reference does not resolve. -/
def wInvB : Invoice := ⟨"inv-2", "po-2", "received", 300, []⟩

/-- Received invoice whose PO reference resolves to a draft PO. -/
def wInvC : Invoice := ⟨"inv-3", "po-3", "received", 999, []⟩

/-- A concrete PO store: resolves po-1 and po-3, nothing else. -/
def wLookup : String → Option PurchaseOrder := fun po_id =>
  if po_id = "po-1" then some wPoA else if po_id = "po-3" then some wPoC else none

end P2P

/-! Helper lemmas shared by the claim theorems. -/

namespace P2P

open ReconciliationJobService

/-- Per-line annotation of the synchronous matcher: the price check runs
after the quantity check and overwrites it, so a pair with both defects ends
up labelled price_mismatch. -/
theorem analyzeItem_match_status (i : Nat) (p q : LineItem) :
    (analyzeItem i p q).match_status =
      (if |p.unit_price - q.unit_price| > 1 / 100 then "price_mismatch"
       else if p.quantity ≠ q.quantity then "quantity_mismatch"
       else "matched") := by
  simp only [analyzeItem]
  split_ifs <;> rfl

/-- Element lookup in the per-line analysis list: equal-length input lists
pair positionally, line `i` of the result analysing line `i` of each input. -/
theorem analyzeItems_get? (ps : List LineItem) :
    ∀ (qs : List LineItem) (k i : Nat), i < ps.length → ps.length = qs.length →
    ∃ p q, ps.get? i = some p ∧ qs.get? i = some q ∧
      (analyzeItems k ps qs).get? i = some (analyzeItem (k + i) p q) := by
  induction ps with
  | nil => intro qs k i h _; simp at h
  | cons p ps ih =>
    intro qs k i hi hlen
    cases qs with
    | nil => simp at hlen
    | cons q qs =>
      cases i with
      | zero => exact ⟨p, q, rfl, rfl, by simp [analyzeItems]⟩
      | succ n =>
        obtain ⟨p', q', h1, h2, h3⟩ := ih qs (k + 1) n (by simpa using hi) (by simpa using hlen)
        refine ⟨p', q', by simpa using h1, by simpa using h2, ?_⟩
        have : k + (n + 1) = (k + 1) + n := by omega
        simpa [analyzeItems, this] using h3

/-- Characterisation of one batch step: a failed PO lookup increments only
the error counter with no status write; a successful lookup with a working
status write persists the engine's verdict (which is matched or rejected)
and advances processed plus the matching counter; a failed status write
increments only the error counter. -/
theorem process_invoice_spec (lp : String → Option PurchaseOrder) (upd : String → Bool)
    (a : Bool) (inv : Invoice) (stats : JobStats) (log : List AuditEntry) :
    (lp inv.po_id = none →
      (process_invoice lp upd a inv stats log).stats = { stats with errors := stats.errors + 1 } ∧
      (process_invoice lp upd a inv stats log).update = none ∧
      (process_invoice lp upd a inv stats log).ok = false) ∧
    (∀ po, lp inv.po_id = some po → upd inv.id = true →
      ∃ s, (process_invoice lp upd a inv stats log).update = some (inv.id, s) ∧
        (s = "matched" ∨ s = "rejected") ∧
        ((process_invoice lp upd a inv stats log).stats =
            { stats with processed := stats.processed + 1, matched := stats.matched + 1 } ∨
         (process_invoice lp upd a inv stats log).stats =
            { stats with processed := stats.processed + 1, rejected := stats.rejected + 1 }) ∧
        (process_invoice lp upd a inv stats log).ok = true) ∧
    (∀ po, lp inv.po_id = some po → upd inv.id = false →
      (process_invoice lp upd a inv stats log).stats = { stats with errors := stats.errors + 1 } ∧
      (process_invoice lp upd a inv stats log).update = none ∧
      (process_invoice lp upd a inv stats log).ok = false) := by
  refine ⟨?_, ?_, ?_⟩
  · intro h
    simp [process_invoice, h]
  · intro po hpo hupd
    have hsc : (reconcile_invoice_with_po inv po).status = "matched" ∨
        (reconcile_invoice_with_po inv po).status = "rejected" := by
      cases hc : ((amountCheckJob po.total_amount inv.total_amount).1 &&
          (lineItemCheckJob po.items inv.items).1 && (poStatusCheck po.status).1) <;>
        simp [reconcile_invoice_with_po, hc]
    refine ⟨(reconcile_invoice_with_po inv po).status, ?_, hsc, ?_, ?_⟩
    · simp [process_invoice, hpo, hupd]
    · by_cases hm : (reconcile_invoice_with_po inv po).status = "matched"
      · left
        simp [process_invoice, hpo, hupd, hm]
      · right
        simp [process_invoice, hpo, hupd, hm]
    · simp [process_invoice, hpo, hupd]
  · intro po hpo hupd
    simp [process_invoice, hpo, hupd]

/-- The sweep over a concatenation runs the first segment, then the second
from the state the first left behind, concatenating updates and outcomes. -/
theorem processAll_append (lp : String → Option PurchaseOrder) (upd : String → Bool) (a : Bool)
    (l1 l2 : List Invoice) (stats : JobStats) (log : List AuditEntry) :
    processAll lp upd a (l1 ++ l2) stats log =
      ((processAll lp upd a l2 (processAll lp upd a l1 stats log).1
          (processAll lp upd a l1 stats log).2.1).1,
       (processAll lp upd a l2 (processAll lp upd a l1 stats log).1
          (processAll lp upd a l1 stats log).2.1).2.1,
       (processAll lp upd a l1 stats log).2.2.1 ++
         (processAll lp upd a l2 (processAll lp upd a l1 stats log).1
            (processAll lp upd a l1 stats log).2.1).2.2.1,
       (processAll lp upd a l1 stats log).2.2.2 ++
         (processAll lp upd a l2 (processAll lp upd a l1 stats log).1
            (processAll lp upd a l1 stats log).2.1).2.2.2) := by
  induction l1 generalizing stats log with
  | nil => simp [processAll]
  | cons inv rest ih => simp [processAll, ih]

/-- One unfolding of the sweep loop. -/
theorem processAll_cons (lp : String → Option PurchaseOrder) (upd : String → Bool) (a : Bool)
    (inv : Invoice) (rest : List Invoice) (stats : JobStats) (log : List AuditEntry) :
    processAll lp upd a (inv :: rest) stats log =
      ((processAll lp upd a rest (process_invoice lp upd a inv stats log).stats
          (process_invoice lp upd a inv stats log).log).1,
       (processAll lp upd a rest (process_invoice lp upd a inv stats log).stats
          (process_invoice lp upd a inv stats log).log).2.1,
       (process_invoice lp upd a inv stats log).update.toList ++
         (processAll lp upd a rest (process_invoice lp upd a inv stats log).stats
            (process_invoice lp upd a inv stats log).log).2.2.1,
       (process_invoice lp upd a inv stats log).ok ::
         (processAll lp upd a rest (process_invoice lp upd a inv stats log).stats
            (process_invoice lp upd a inv stats log).log).2.2.2) := rfl

/-- A sweep segment on which every PO reference resolves and every status
write succeeds: no error is added, every invoice is processed and persisted
with a matched or rejected status, and one outcome is recorded per invoice. -/
theorem processAll_resolvable (lp : String → Option PurchaseOrder) (upd : String → Bool) (a : Bool)
    (l : List Invoice) (stats : JobStats) (log : List AuditEntry)
    (hresolve : ∀ inv ∈ l, (lp inv.po_id).isSome = true)
    (hupd : ∀ id, upd id = true) :
    (processAll lp upd a l stats log).1.errors = stats.errors ∧
    (processAll lp upd a l stats log).1.processed = stats.processed + l.length ∧
    (processAll lp upd a l stats log).1.skipped = stats.skipped ∧
    (processAll lp upd a l stats log).2.2.1.map Prod.fst = l.map Invoice.id ∧
    (∀ u ∈ (processAll lp upd a l stats log).2.2.1, u.2 = "matched" ∨ u.2 = "rejected") ∧
    (processAll lp upd a l stats log).2.2.2.length = l.length := by
  induction l generalizing stats log with
  | nil => simp [processAll]
  | cons inv rest ih =>
    have hs : (lp inv.po_id).isSome = true := hresolve inv (by simp)
    obtain ⟨po, hpo⟩ := Option.isSome_iff_exists.mp hs
    obtain ⟨s, hu, hms, hst, hok⟩ :=
      (process_invoice_spec lp upd a inv stats log).2.1 po hpo (hupd inv.id)
    have ihr := ih (process_invoice lp upd a inv stats log).stats
      (process_invoice lp upd a inv stats log).log
      (fun x hx => hresolve x (by simp [hx]))
    obtain ⟨e1, e2, e3, e4, e5, e6⟩ := ihr
    refine ⟨?_, ?_, ?_, ?_, ?_, ?_⟩
    · rw [show (processAll lp upd a (inv :: rest) stats log).1 =
          (processAll lp upd a rest (process_invoice lp upd a inv stats log).stats
            (process_invoice lp upd a inv stats log).log).1 from rfl, e1]
      rcases hst with h | h <;> rw [h]
    · rw [show (processAll lp upd a (inv :: rest) stats log).1 =
          (processAll lp upd a rest (process_invoice lp upd a inv stats log).stats
            (process_invoice lp upd a inv stats log).log).1 from rfl, e2]
      rcases hst with h | h <;> (rw [h]; simp; omega)
    · rw [show (processAll lp upd a (inv :: rest) stats log).1 =
          (processAll lp upd a rest (process_invoice lp upd a inv stats log).stats
            (process_invoice lp upd a inv stats log).log).1 from rfl, e3]
      rcases hst with h | h <;> rw [h]
    · rw [show (processAll lp upd a (inv :: rest) stats log).2.2.1 =
          (process_invoice lp upd a inv stats log).update.toList ++
          (processAll lp upd a rest (process_invoice lp upd a inv stats log).stats
            (process_invoice lp upd a inv stats log).log).2.2.1 from rfl]
      simp [hu, e4]
    · intro u hu2
      rw [show (processAll lp upd a (inv :: rest) stats log).2.2.1 =
          (process_invoice lp upd a inv stats log).update.toList ++
          (processAll lp upd a rest (process_invoice lp upd a inv stats log).stats
            (process_invoice lp upd a inv stats log).log).2.2.1 from rfl] at hu2
      rw [hu] at hu2
      simp at hu2
      rcases hu2 with h | h
      · subst h; exact hms
      · exact e5 u h
    · rw [show (processAll lp upd a (inv :: rest) stats log).2.2.2 =
          (process_invoice lp upd a inv stats log).ok ::
          (processAll lp upd a rest (process_invoice lp upd a inv stats log).stats
            (process_invoice lp upd a inv stats log).log).2.2.2 from rfl]
      simp [e6]

/-- Every batch step leaves the statistics in one of three shapes: an error
increment, a processed-and-matched increment, or a processed-and-rejected
increment. -/
theorem process_invoice_stats_shape (lp : String → Option PurchaseOrder) (upd : String → Bool)
    (a : Bool) (inv : Invoice) (stats : JobStats) (log : List AuditEntry) :
    (process_invoice lp upd a inv stats log).stats = { stats with errors := stats.errors + 1 } ∨
    (process_invoice lp upd a inv stats log).stats =
      { stats with processed := stats.processed + 1, matched := stats.matched + 1 } ∨
    (process_invoice lp upd a inv stats log).stats =
      { stats with processed := stats.processed + 1, rejected := stats.rejected + 1 } := by
  cases hpo : lp inv.po_id with
  | none => exact Or.inl ((process_invoice_spec lp upd a inv stats log).1 hpo).1
  | some po =>
    cases hupd : upd inv.id with
    | false => exact Or.inl ((process_invoice_spec lp upd a inv stats log).2.2 po hpo hupd).1
    | true =>
      obtain ⟨s, _, _, hst, _⟩ := (process_invoice_spec lp upd a inv stats log).2.1 po hpo hupd
      rcases hst with h | h
      · exact Or.inr (Or.inl h)
      · exact Or.inr (Or.inr h)

/-- The sweep preserves the processed-equals-matched-plus-rejected relation
and never touches the skipped counter. -/
theorem processAll_stats_invariant (lp : String → Option PurchaseOrder) (upd : String → Bool)
    (a : Bool) (invs : List Invoice) (stats : JobStats) (log : List AuditEntry)
    (h : stats.processed = stats.matched + stats.rejected) :
    ((processAll lp upd a invs stats log).1.processed =
      (processAll lp upd a invs stats log).1.matched +
      (processAll lp upd a invs stats log).1.rejected) ∧
    (processAll lp upd a invs stats log).1.skipped = stats.skipped := by
  induction invs generalizing stats log with
  | nil => exact ⟨h, rfl⟩
  | cons inv rest ih =>
    have hinv : (process_invoice lp upd a inv stats log).stats.processed =
        (process_invoice lp upd a inv stats log).stats.matched +
        (process_invoice lp upd a inv stats log).stats.rejected := by
      rcases process_invoice_stats_shape lp upd a inv stats log with hs | hs | hs <;>
        (rw [hs]; simp; try omega)
    have hskip : (process_invoice lp upd a inv stats log).stats.skipped = stats.skipped := by
      rcases process_invoice_stats_shape lp upd a inv stats log with hs | hs | hs <;> rw [hs]
    obtain ⟨ih1, ih2⟩ := ih (process_invoice lp upd a inv stats log).stats
      (process_invoice lp upd a inv stats log).log hinv
    rw [processAll_cons]
    exact ⟨ih1, ih2.trans hskip⟩

end P2P

/-! The claim theorems. -/

namespace P2P

open ReconciliationJobService

/-- C1: for every invoice and purchase-order snapshot, each engine's verdict
is "matched" exactly when all three flags (total_amount_match, items_match,
po_status_valid) are true; a "rejected" verdict comes with a non-empty
discrepancy list, and in the synchronous engine every false flag contributes
exactly one discrepancy string. -/
theorem reconcile_verdict_iff_flags (invoice_data : Invoice) (po_data : PurchaseOrder) :
    ((DynamoDBService.reconcile_invoice_with_po invoice_data po_data).status = "matched" ↔
      ((DynamoDBService.reconcile_invoice_with_po invoice_data po_data).details.total_amount_match = true ∧
       (DynamoDBService.reconcile_invoice_with_po invoice_data po_data).details.items_match = true ∧
       (DynamoDBService.reconcile_invoice_with_po invoice_data po_data).details.po_status_valid = true)) ∧
    ((DynamoDBService.reconcile_invoice_with_po invoice_data po_data).status = "rejected" →
      (DynamoDBService.reconcile_invoice_with_po invoice_data po_data).details.discrepancies ≠ []) ∧
    ((DynamoDBService.reconcile_invoice_with_po invoice_data po_data).details.discrepancies.length =
      (if (DynamoDBService.reconcile_invoice_with_po invoice_data po_data).details.po_status_valid then 0 else 1) +
      (if (DynamoDBService.reconcile_invoice_with_po invoice_data po_data).details.total_amount_match then 0 else 1) +
      (if (DynamoDBService.reconcile_invoice_with_po invoice_data po_data).details.items_match then 0 else 1)) ∧
    ((ReconciliationJobService.reconcile_invoice_with_po invoice_data po_data).status = "matched" ↔
      ((ReconciliationJobService.reconcile_invoice_with_po invoice_data po_data).details.total_amount_match = true ∧
       (ReconciliationJobService.reconcile_invoice_with_po invoice_data po_data).details.items_match = true ∧
       (ReconciliationJobService.reconcile_invoice_with_po invoice_data po_data).details.po_status_valid = true)) ∧
    ((ReconciliationJobService.reconcile_invoice_with_po invoice_data po_data).status = "rejected" →
      (ReconciliationJobService.reconcile_invoice_with_po invoice_data po_data).details.discrepancies ≠ []) := by
  cases hs : statusEligible (lower po_data.status) <;>
  cases ha : toleranceOk po_data.total_amount invoice_data.total_amount <;>
  cases hi : itemCountOk po_data.items invoice_data.items <;>
  simp [DynamoDBService.reconcile_invoice_with_po, ReconciliationJobService.reconcile_invoice_with_po,
        poStatusCheck, amountCheckSync, amountCheckJob, lineItemCheckSync, lineItemCheckJob, hs, ha, hi]

/-- C2 counterexample: on a concrete matching invoice/PO pair the synchronous
engine and the batch engine return different message strings, so the two call
paths do not produce identical results. -/
theorem sync_batch_results_differ :
    (DynamoDBService.reconcile_invoice_with_po cexInvoice cexPO).message ≠
    (ReconciliationJobService.reconcile_invoice_with_po cexInvoice cexPO).message := by
  have hs : statusEligible (lower cexPO.status) = true := by decide
  have ha : toleranceOk cexPO.total_amount cexInvoice.total_amount = true := by
    simp [toleranceOk, cexPO, cexInvoice]
  have hi : itemCountOk cexPO.items cexInvoice.items = true := by decide
  simp [DynamoDBService.reconcile_invoice_with_po, ReconciliationJobService.reconcile_invoice_with_po,
        poStatusCheck, amountCheckSync, amountCheckJob, lineItemCheckSync, lineItemCheckJob,
        hs, ha, hi]

/-- C2 amended: on every pair of snapshots the synchronous and the batch
reconciliation agree on the status and on each of the three Boolean flags,
and their discrepancy lists have the same length; the message strings, the
amount-discrepancy wording and the per-line diagnostics differ between the
two paths. -/
theorem sync_batch_agree_on_flags_and_status (invoice_data : Invoice) (po_data : PurchaseOrder) :
    (DynamoDBService.reconcile_invoice_with_po invoice_data po_data).status =
      (ReconciliationJobService.reconcile_invoice_with_po invoice_data po_data).status ∧
    (DynamoDBService.reconcile_invoice_with_po invoice_data po_data).details.total_amount_match =
      (ReconciliationJobService.reconcile_invoice_with_po invoice_data po_data).details.total_amount_match ∧
    (DynamoDBService.reconcile_invoice_with_po invoice_data po_data).details.items_match =
      (ReconciliationJobService.reconcile_invoice_with_po invoice_data po_data).details.items_match ∧
    (DynamoDBService.reconcile_invoice_with_po invoice_data po_data).details.po_status_valid =
      (ReconciliationJobService.reconcile_invoice_with_po invoice_data po_data).details.po_status_valid ∧
    (DynamoDBService.reconcile_invoice_with_po invoice_data po_data).details.discrepancies.length =
      (ReconciliationJobService.reconcile_invoice_with_po invoice_data po_data).details.discrepancies.length := by
  cases hs : statusEligible (lower po_data.status) <;>
  cases ha : toleranceOk po_data.total_amount invoice_data.total_amount <;>
  cases hi : itemCountOk po_data.items invoice_data.items <;>
  simp [DynamoDBService.reconcile_invoice_with_po, ReconciliationJobService.reconcile_invoice_with_po,
        poStatusCheck, amountCheckSync, amountCheckJob, lineItemCheckSync, lineItemCheckJob, hs, ha, hi]

/-- C3: for all non-negative reference and candidate amounts, the tolerance
comparator used by both engines passes exactly when the absolute difference
is at most one percent of the reference, and with reference zero the only
passing candidate is zero. -/
theorem tolerance_comparator_spec (reference candidate : ℚ)
    (href : 0 ≤ reference) (_hcand : 0 ≤ candidate) :
    (toleranceOk reference candidate = true ↔ |reference - candidate| ≤ reference * (1 / 100)) ∧
    (reference = 0 → (toleranceOk reference candidate = true ↔ candidate = 0)) := by
  constructor
  · simp [toleranceOk]
  · rintro rfl
    simp [toleranceOk, zero_sub, abs_neg, abs_nonpos_iff]

/-- C3 witness: the comparator evaluated at the concrete amounts 100 and 105. -/
theorem tolerance_comparator_spec_witness :
    (0:ℚ) ≤ 100 ∧ (0:ℚ) ≤ 105 ∧
    ((toleranceOk 100 105 = true ↔ |(100:ℚ) - 105| ≤ 100 * (1 / 100)) ∧
     ((100:ℚ) = 0 → (toleranceOk 100 105 = true ↔ (105:ℚ) = 0))) :=
  ⟨by norm_num, by norm_num, tolerance_comparator_spec 100 105 (by norm_num) (by norm_num)⟩

/-- C4: the items_match flag is true exactly when the two item lists have
equal length, whatever the per-line quantities and unit prices; when the
lengths agree, a rejected verdict can only come from the amount check or the
status gate, never from per-line defects alone. -/
theorem items_match_ignores_line_defects (invoice_data : Invoice) (po_data : PurchaseOrder) :
    ((DynamoDBService.reconcile_invoice_with_po invoice_data po_data).details.items_match = true
       ↔ po_data.items.length = invoice_data.items.length) ∧
    (po_data.items.length = invoice_data.items.length →
      (DynamoDBService.reconcile_invoice_with_po invoice_data po_data).status = "rejected" →
      ((DynamoDBService.reconcile_invoice_with_po invoice_data po_data).details.total_amount_match = false ∨
       (DynamoDBService.reconcile_invoice_with_po invoice_data po_data).details.po_status_valid = false)) := by
  constructor
  · simp [DynamoDBService.reconcile_invoice_with_po, lineItemCheckSync, itemCountOk]
  · intro hlen
    cases hs : statusEligible (lower po_data.status) <;>
    cases ha : toleranceOk po_data.total_amount invoice_data.total_amount <;>
    simp [DynamoDBService.reconcile_invoice_with_po, poStatusCheck, amountCheckSync,
          lineItemCheckSync, itemCountOk, hs, ha, hlen]

/-- C5: on lists of differing length the line-item matcher reports exactly
the one count discrepancy and no per-line diagnostics; on lists of equal
length it reports no discrepancy and annotates line i by comparing line i of
each side, labelling it price_mismatch when the unit prices differ by more
than 0.01 (this check wins when both defects apply), else quantity_mismatch
when the quantities differ, else matched. -/
theorem line_item_matcher_spec (po_items invoice_items : List LineItem) :
    (po_items.length ≠ invoice_items.length →
      (lineItemCheckSync po_items invoice_items).2.1 = [countMismatchMsg po_items invoice_items] ∧
      (lineItemCheckSync po_items invoice_items).2.2 = []) ∧
    (po_items.length = invoice_items.length →
      (lineItemCheckSync po_items invoice_items).2.1 = [] ∧
      ∀ i, i < po_items.length →
        ∃ p q, po_items.get? i = some p ∧ invoice_items.get? i = some q ∧
          ∃ a, (lineItemCheckSync po_items invoice_items).2.2.get? i = some a ∧
            a.match_status =
              (if |p.unit_price - q.unit_price| > 1 / 100 then "price_mismatch"
               else if p.quantity ≠ q.quantity then "quantity_mismatch"
               else "matched")) := by
  constructor
  · intro h
    simp [lineItemCheckSync, itemCountOk, h]
  · intro h
    refine ⟨by simp [lineItemCheckSync, itemCountOk, h], ?_⟩
    intro i hi
    obtain ⟨p, q, h1, h2, h3⟩ := analyzeItems_get? po_items invoice_items 0 i hi h
    refine ⟨p, q, h1, h2, analyzeItem (0 + i) p q, ?_, analyzeItem_match_status _ p q⟩
    have e : (lineItemCheckSync po_items invoice_items).2.2 =
        analyzeItems 0 po_items invoice_items := by
      simp [lineItemCheckSync, itemCountOk, h]
    rw [e]
    exact h3

/-- C6: the status gate passes exactly when the lowercased status is
approved or sent; on failure its one discrepancy string names the
(lowercased) actual status and the expected set, and the gate's Boolean is
what both engines record as po_status_valid. -/
theorem status_gate_spec (status : String) (invoice_data : Invoice) (po_data : PurchaseOrder) :
    ((poStatusCheck status).1 = true ↔ (lower status = "approved" ∨ lower status = "sent")) ∧
    ((poStatusCheck status).1 = false →
      (poStatusCheck status).2 =
        ["PO status is '" ++ lower status ++ "', expected 'approved' or 'sent'"]) ∧
    (DynamoDBService.reconcile_invoice_with_po invoice_data po_data).details.po_status_valid
      = (poStatusCheck po_data.status).1 ∧
    (ReconciliationJobService.reconcile_invoice_with_po invoice_data po_data).details.po_status_valid
      = (poStatusCheck po_data.status).1 := by
  refine ⟨?_, ?_, rfl, rfl⟩
  · simp [poStatusCheck, statusEligible]
  · intro h
    simp only [poStatusCheck, statusEligible] at h ⊢
    simp only [Bool.or_eq_false_iff, decide_eq_false_iff_not] at h
    simp [h.1, h.2]

/-- C7: a batch run over a list of received invoices in which exactly one
invoice's PO reference does not resolve (and every status write succeeds)
records an outcome for every invoice, increments the error counter exactly
once, and persists a matched-or-rejected status for each of the other
invoices. -/
theorem batch_fault_isolation (lp : String → Option PurchaseOrder) (upd : String → Bool)
    (a : Bool) (pre post : List Invoice) (bad : Invoice)
    (hpre : ∀ inv ∈ pre, (lp inv.po_id).isSome = true)
    (hbad : lp bad.po_id = none)
    (hpost : ∀ inv ∈ post, (lp inv.po_id).isSome = true)
    (hupd : ∀ id, upd id = true) :
    (processAll lp upd a (pre ++ bad :: post) initStats []).2.2.2.length =
      (pre ++ bad :: post).length ∧
    (processAll lp upd a (pre ++ bad :: post) initStats []).1.errors = 1 ∧
    (processAll lp upd a (pre ++ bad :: post) initStats []).1.processed =
      pre.length + post.length ∧
    (processAll lp upd a (pre ++ bad :: post) initStats []).2.2.1.map Prod.fst =
      (pre ++ post).map Invoice.id ∧
    (∀ u ∈ (processAll lp upd a (pre ++ bad :: post) initStats []).2.2.1,
      u.2 = "matched" ∨ u.2 = "rejected") := by
  obtain ⟨a1, a2, a3, a4, a5, a6⟩ := processAll_resolvable lp upd a pre initStats [] hpre hupd
  obtain ⟨t1, t2, t3⟩ :=
    (process_invoice_spec lp upd a bad (processAll lp upd a pre initStats []).1
      (processAll lp upd a pre initStats []).2.1).1 hbad
  obtain ⟨b1, b2, b3, b4, b5, b6⟩ := processAll_resolvable lp upd a post
      (process_invoice lp upd a bad (processAll lp upd a pre initStats []).1
        (processAll lp upd a pre initStats []).2.1).stats
      (process_invoice lp upd a bad (processAll lp upd a pre initStats []).1
        (processAll lp upd a pre initStats []).2.1).log hpost hupd
  have hstats : (processAll lp upd a (pre ++ bad :: post) initStats []).1 =
      (processAll lp upd a post
        (process_invoice lp upd a bad (processAll lp upd a pre initStats []).1
          (processAll lp upd a pre initStats []).2.1).stats
        (process_invoice lp upd a bad (processAll lp upd a pre initStats []).1
          (processAll lp upd a pre initStats []).2.1).log).1 := by
    rw [processAll_append, processAll_cons]
  have hupds : (processAll lp upd a (pre ++ bad :: post) initStats []).2.2.1 =
      (processAll lp upd a pre initStats []).2.2.1 ++
      ((process_invoice lp upd a bad (processAll lp upd a pre initStats []).1
          (processAll lp upd a pre initStats []).2.1).update.toList ++
       (processAll lp upd a post
          (process_invoice lp upd a bad (processAll lp upd a pre initStats []).1
            (processAll lp upd a pre initStats []).2.1).stats
          (process_invoice lp upd a bad (processAll lp upd a pre initStats []).1
            (processAll lp upd a pre initStats []).2.1).log).2.2.1) := by
    rw [processAll_append, processAll_cons]
  have hoks : (processAll lp upd a (pre ++ bad :: post) initStats []).2.2.2 =
      (processAll lp upd a pre initStats []).2.2.2 ++
      ((process_invoice lp upd a bad (processAll lp upd a pre initStats []).1
          (processAll lp upd a pre initStats []).2.1).ok ::
       (processAll lp upd a post
          (process_invoice lp upd a bad (processAll lp upd a pre initStats []).1
            (processAll lp upd a pre initStats []).2.1).stats
          (process_invoice lp upd a bad (processAll lp upd a pre initStats []).1
            (processAll lp upd a pre initStats []).2.1).log).2.2.2) := by
    rw [processAll_append, processAll_cons]
  refine ⟨?_, ?_, ?_, ?_, ?_⟩
  · rw [hoks]
    simp [a6, b6]
  · rw [hstats, b1, t1, a1]
    rfl
  · rw [hstats, b2, t1, a2]
    simp [initStats]
  · rw [hupds, t2]
    simp [a4, b4]
  · intro u hu
    rw [hupds, t2] at hu
    simp only [Option.toList_none, List.nil_append, List.mem_append] at hu
    rcases hu with h | h
    · exact a5 u h
    · exact b5 u h

/-- C7 witness: a three-invoice run in which only the middle invoice's PO
reference fails to resolve. -/
theorem batch_fault_isolation_witness :
    (processAll wLookup (fun _ => true) true ([wInvA] ++ wInvB :: [wInvC]) initStats []).2.2.2.length =
      ([wInvA] ++ wInvB :: [wInvC]).length ∧
    (processAll wLookup (fun _ => true) true ([wInvA] ++ wInvB :: [wInvC]) initStats []).1.errors = 1 ∧
    (processAll wLookup (fun _ => true) true ([wInvA] ++ wInvB :: [wInvC]) initStats []).1.processed =
      [wInvA].length + [wInvC].length ∧
    (processAll wLookup (fun _ => true) true ([wInvA] ++ wInvB :: [wInvC]) initStats []).2.2.1.map Prod.fst =
      ([wInvA] ++ [wInvC]).map Invoice.id ∧
    (∀ u ∈ (processAll wLookup (fun _ => true) true ([wInvA] ++ wInvB :: [wInvC]) initStats []).2.2.1,
      u.2 = "matched" ∨ u.2 = "rejected") :=
  batch_fault_isolation wLookup (fun _ => true) true [wInvA] [wInvC] wInvB
    (by decide) (by decide) (by decide) (fun _ => rfl)

/-- C8: a failed audit write changes nothing primary — the synchronous
engine returns the pure engine report whatever the audit outcome, the API
route's response and persisted status updates are the same for any audit
outcome, and a batch step's statistics, status write and return value are
the same for any audit outcome. -/
theorem audit_failure_does_not_change_outcome :
    (∀ (auditOk : Bool) (invoice_id : String) (invoice_data : Invoice) (po_data : PurchaseOrder)
        (log : List AuditEntry),
      (DynamoDBService.reconcile_invoice_with_po_logged auditOk invoice_id invoice_data po_data
          log).1 =
        DynamoDBService.reconcile_invoice_with_po invoice_data po_data) ∧
    (∀ (getInvoice : String → Option Invoice) (getPO : String → Option PurchaseOrder)
        (invoice_id : String) (a b : Bool),
      (InvoiceRoutes.reconcile_invoice getInvoice getPO a invoice_id).1 =
        (InvoiceRoutes.reconcile_invoice getInvoice getPO b invoice_id).1 ∧
      (InvoiceRoutes.reconcile_invoice getInvoice getPO a invoice_id).2.1 =
        (InvoiceRoutes.reconcile_invoice getInvoice getPO b invoice_id).2.1) ∧
    (∀ (lp : String → Option PurchaseOrder) (upd : String → Bool)
        (inv : Invoice) (stats : JobStats) (log : List AuditEntry) (a b : Bool),
      (process_invoice lp upd a inv stats log).stats =
        (process_invoice lp upd b inv stats log).stats ∧
      (process_invoice lp upd a inv stats log).update =
        (process_invoice lp upd b inv stats log).update ∧
      (process_invoice lp upd a inv stats log).ok =
        (process_invoice lp upd b inv stats log).ok) := by
  refine ⟨fun _ _ _ _ _ => rfl, ?_, ?_⟩
  · intro gI gPO id a b
    cases hI : gI id with
    | none => simp [InvoiceRoutes.reconcile_invoice, hI]
    | some inv =>
      cases hP : gPO inv.po_id <;>
        simp [InvoiceRoutes.reconcile_invoice, hI, hP,
          DynamoDBService.reconcile_invoice_with_po_logged]
  · intro lp upd inv stats log a b
    cases hP : lp inv.po_id with
    | none => simp [process_invoice, hP]
    | some po =>
      cases hu : upd inv.id <;> simp [process_invoice, hP, hu]

/-- C9: when the invoice's PO reference does not resolve, no status update
is persisted — the API route performs no update and answers 400, and the
batch step performs no update. -/
theorem po_lookup_failure_leaves_status :
    (∀ (getInvoice : String → Option Invoice) (getPO : String → Option PurchaseOrder)
        (auditOk : Bool) (invoice_id : String) (invoice_data : Invoice),
      getInvoice invoice_id = some invoice_data →
      getPO invoice_data.po_id = none →
      (InvoiceRoutes.reconcile_invoice getInvoice getPO auditOk invoice_id).2.1 = [] ∧
      (InvoiceRoutes.reconcile_invoice getInvoice getPO auditOk invoice_id).1 =
        Except.error (400, "Associated purchase order not found")) ∧
    (∀ (lp : String → Option PurchaseOrder) (upd : String → Bool) (auditOk : Bool)
        (inv : Invoice) (stats : JobStats) (log : List AuditEntry),
      lp inv.po_id = none →
      (process_invoice lp upd auditOk inv stats log).update = none) := by
  constructor
  · intro gI gPO a id inv hI hP
    constructor <;> simp [InvoiceRoutes.reconcile_invoice, hI, hP]
  · intro lp upd a inv stats log hP
    simp [process_invoice, hP]

/-- C10: every batch step keeps skipped unchanged and preserves
processed = matched + rejected; the sweep preserves that invariant from any
state satisfying it; and a whole job run ends with
processed = matched + rejected and skipped = 0, since no code path ever
increments the skipped counter. -/
theorem job_stats_invariant (lp : String → Option PurchaseOrder) (upd : String → Bool) (a : Bool) :
    (∀ (inv : Invoice) (stats : JobStats) (log : List AuditEntry),
      (process_invoice lp upd a inv stats log).stats.skipped = stats.skipped ∧
      (stats.processed = stats.matched + stats.rejected →
        (process_invoice lp upd a inv stats log).stats.processed =
          (process_invoice lp upd a inv stats log).stats.matched +
          (process_invoice lp upd a inv stats log).stats.rejected)) ∧
    (∀ (invs : List Invoice) (stats : JobStats) (log : List AuditEntry),
      stats.processed = stats.matched + stats.rejected →
      ((processAll lp upd a invs stats log).1.processed =
        (processAll lp upd a invs stats log).1.matched +
        (processAll lp upd a invs stats log).1.rejected) ∧
      (processAll lp upd a invs stats log).1.skipped = stats.skipped) ∧
    (∀ invs : List Invoice,
      ((run_reconciliation_job lp upd a invs).1.processed =
        (run_reconciliation_job lp upd a invs).1.matched +
        (run_reconciliation_job lp upd a invs).1.rejected) ∧
      (run_reconciliation_job lp upd a invs).1.skipped = 0) := by
  refine ⟨?_, fun invs stats log h => processAll_stats_invariant lp upd a invs stats log h, ?_⟩
  · intro inv stats log
    rcases process_invoice_stats_shape lp upd a inv stats log with hs | hs | hs <;>
      (rw [hs]; exact ⟨rfl, by intro h; simp; omega⟩)
  · intro invs
    cases invs with
    | nil => exact ⟨rfl, rfl⟩
    | cons inv rest =>
      have h := processAll_stats_invariant lp upd a (inv :: rest) initStats [] rfl
      simpa [run_reconciliation_job, initStats] using h

end P2P
